import Mathlib

/-
Shallow embedding of `src/assets/src/ba_data/python/ba/_actor.py` (the `Actor`
base class of the ballistica scripting layer) together with models of the
opaque external collaborators it calls into: engine nodes, the owning
`Activity`, the weakref mechanism and the error-reporting subsystem.

Side effects on the engine (node deletion, error printing, message dispatch)
are made observable as an explicit trace of `EngineCall` events; the heap of
`Activity` objects is an explicit association list so that weak references
(stored activity ids) can dangle once the garbage collector frees an entry.
-/

set_option autoImplicit false

namespace Ballistica

/-- Identifier of an `Activity` object on the heap; a stored weak reference
is just such an id, dereferenced against the heap at each use. -/
abbrev ActivityId := Nat

/-- External engine node (opaque service, out of scope for the spec): we model
only what `Actor` uses, namely an identity and whether the node still exists. -/
structure Node where
  id : Nat
  alive : Bool
deriving Repr, DecidableEq

/-- Modelled from the spec: the engine `node.exists()` query (external, not
under src/) reports whether the node is still present. -/
def Node.exists (n : Node) : Bool := n.alive

/-- External `Activity` collaborator, modelled from the spec: it "owns a
registry of weak actor references and an explicit retain list for actors kept
alive outside normal reference counting", plus an expired flag. -/
structure Activity where
  expired : Bool
  actorWeakRefs : List Nat
  retainedActors : List Nat
deriving Repr, DecidableEq

/-- Modelled from the spec: `Activity.is_expired()` (external, not under src/)
reports whether the activity has been set as expired. -/
def Activity.is_expired (act : Activity) : Bool := act.expired

/-- Modelled from the spec: `Activity.add_actor_weak_ref` (external, not under
src/) records the actor in the registry of weak actor references. -/
def Activity.add_actor_weak_ref (act : Activity) (actorId : Nat) : Activity :=
  { act with actorWeakRefs := act.actorWeakRefs ++ [actorId] }

/-- Modelled from the spec: `Activity.retain_actor` (external, not under src/)
adds the actor to the explicit retain list of the activity. -/
def Activity.retain_actor (act : Activity) (actorId : Nat) : Activity :=
  { act with retainedActors := act.retainedActors ++ [actorId] }

/-- Heap of live `Activity` objects, keyed by id. An id absent from the heap
stands for an activity the garbage collector has already freed, so a weak
reference to it dereferences to `none`. -/
abbrev ActivityHeap := List (ActivityId × Activity)

/-- Dereference a weak activity reference against the heap: the Lean model of
calling the Python weakref object (`self._activity()`); `none` means the
referent has been collected. -/
def derefActivity : ActivityHeap → ActivityId → Option Activity
  | [], _ => none
  | (i, act) :: rest, r => if i = r then some act else derefActivity rest r

/-- Replace the activity stored at id `r` (first occurrence) with `act`. -/
def heapUpdate : ActivityHeap → ActivityId → Activity → ActivityHeap
  | [], _, _ => []
  | (i, a0) :: rest, r, act =>
      if i = r then (r, act) :: rest else (i, a0) :: heapUpdate rest r act

/-- Garbage collection of the activity with id `r`: its heap entries vanish.
This is possible no matter which actors still hold (weak) references to `r`;
that is precisely what makes those references non-owning. -/
def collectActivity : ActivityHeap → ActivityId → ActivityHeap
  | [], _ => []
  | (i, a0) :: rest, r =>
      if i = r then collectActivity rest r else (i, a0) :: collectActivity rest r

/-- Messages handled by the dispatch convention. The source only constructs
`DieMessage()` and tests `isinstance(msg, DieMessage)`, so a die message and
an opaque family of other messages suffice. -/
inductive Msg where
  | die
  | other (tag : Nat)
deriving Repr, DecidableEq

/-- Value returned by the default `Actor.handlemessage`: Python `None`, or the
`UNHANDLED` sentinel from the error subsystem. -/
inductive HMResult where
  | none
  | unhandled
deriving Repr, DecidableEq

/-- Observable engine-affecting events emitted by actor methods:
`node.delete()` calls, the dispatch of a message to an actor via its
`handlemessage` method, and reports through `_error.print_exception`. -/
inductive EngineCall where
  | nodeDelete (nodeId : Nat)
  | dispatchMessage (actorId : Nat) (msg : Msg)
  | printException (info : String)
deriving Repr, DecidableEq

/-- Exceptions raised by the methods of this file. -/
inductive Exn where
  | activityNotFound
deriving Repr, DecidableEq

/-- The `Actor` object state after `__init__`: an identity (standing for the
Python object itself, as stored in registries), the optional wrapped node, and
the weak reference `self._activity` to the owning activity. -/
structure Actor where
  id : Nat
  node : Option Node
  _activity : ActivityId
deriving Repr, DecidableEq

/-- Engine context for `__init__`: the activity heap plus the id of the
current activity, so that `_ba.getactivity()` (modelled from the spec: the
engine returns the activity of the current context, raising if there is none)
is a lookup of `current` in the heap. -/
structure EngineContext where
  heap : ActivityHeap
  current : ActivityId
deriving Repr, DecidableEq

/-- `Actor.__init__(self, node=None)`: sets `self.node = None`, obtains the
current activity, stores a weakref to it, registers the actor through
`activity.add_actor_weak_ref(self)`, then stores `node` if one was given. -/
def Actor.init (newId : Nat) (node : Option Node) (ctx : EngineContext) :
    Except Exn (Actor × EngineContext) :=
  match derefActivity ctx.heap ctx.current with
  | Option.none => Except.error Exn.activityNotFound
  | Option.some act =>
      let a : Actor := { id := newId, node := Option.none, _activity := ctx.current }
      let ctx' : EngineContext :=
        { ctx with heap := heapUpdate ctx.heap ctx.current (act.add_actor_weak_ref newId) }
      let a' : Actor :=
        match node with
        | Option.some n => { a with node := Option.some n }
        | Option.none => a
      Except.ok (a', ctx')

/-- `Actor.getactivity(self, doraise=True)`: dereference the weakref; if the
activity is gone and `doraise` is set, raise `ActivityNotFoundError`,
otherwise return the (possibly `None`) activity. -/
def Actor.getactivity (a : Actor) (h : ActivityHeap) (doraise : Bool := true) :
    Except Exn (Option Activity) :=
  let activity := derefActivity h a._activity
  if activity.isNone && doraise then Except.error Exn.activityNotFound
  else Except.ok activity

/-- The `Actor.activity` property: dereference the weakref, raising
`ActivityNotFoundError` when the activity no longer exists. -/
def Actor.activity (a : Actor) (h : ActivityHeap) : Except Exn Activity :=
  match derefActivity h a._activity with
  | Option.none => Except.error Exn.activityNotFound
  | Option.some act => Except.ok act

/-- `Actor.is_expired(self)`: `activity = self.getactivity(doraise=False)`,
then `True` if the activity is `None`, else `activity.is_expired()`. The
`doraise=False` call never raises, so the error branch below is unreachable
(its value is arbitrary; `true` is chosen). -/
def Actor.is_expired (a : Actor) (h : ActivityHeap) : Bool :=
  match a.getactivity h false with
  | Except.ok Option.none => true
  | Except.ok (Option.some activity) => activity.is_expired
  | Except.error _ => true

/-- Default `Actor.handlemessage(self, msg)`: a `DieMessage` deletes the
wrapped node (when there is one) and returns `None`; any other message
returns the `UNHANDLED` sentinel with no effect. The returned list is the
trace of engine calls performed. -/
def Actor.handlemessage (a : Actor) (msg : Msg) : HMResult × List EngineCall :=
  match msg with
  | Msg.die =>
      match a.node with
      | Option.some n => (HMResult.none, [EngineCall.nodeDelete n.id])
      | Option.none => (HMResult.none, [])
  | Msg.other _ => (HMResult.unhandled, [])

/-- Default `Actor.exists(self)`: `node.exists()` when the actor has a node,
otherwise `True`. -/
def Actor.exists (a : Actor) : Bool :=
  match a.node with
  | Option.some n => n.exists
  | Option.none => true

/-- `Actor.__bool__(self)`: simply calls `self.exists()`. -/
def Actor.toBool (a : Actor) : Bool := a.exists

/-- `Actor.is_alive(self)`: the base implementation always reports alive. -/
def Actor.is_alive (_a : Actor) : Bool := true

/-- `Actor.autoretain(self)`: dereference the weakref, raise
`ActivityNotFoundError` if the activity is gone, otherwise call
`activity.retain_actor(self)` and return `self` itself. The resulting heap
carries the updated activity. -/
def Actor.autoretain (a : Actor) (h : ActivityHeap) : Except Exn (Actor × ActivityHeap) :=
  match derefActivity h a._activity with
  | Option.none => Except.error Exn.activityNotFound
  | Option.some act =>
      Except.ok (a, heapUpdate h a._activity (act.retain_actor a.id))

/-- Dynamic `handlemessage` implementation seen by `__del__`: subclasses may
override the method, so the dispatch target is a parameter. It yields the
trace of engine calls performed and, optionally, an exception it raised. -/
abbrev Handler := Msg → List EngineCall × Option String

/-- The dynamic handler corresponding to the default base-class
`Actor.handlemessage`, which never raises. -/
def Actor.defaultHandler (a : Actor) : Handler :=
  fun m => ((a.handlemessage m).2, Option.none)

/-- `Actor.__del__(self)`: inside a try block, a non-expired actor sends
itself `DieMessage()` through `self.handlemessage`; any exception from the
body is caught and reported via `_error.print_exception`. The result is the
trace of engine calls performed by the finalizer, which by construction
always returns normally. -/
def Actor.del (a : Actor) (h : ActivityHeap) (handler : Handler) : List EngineCall :=
  if a.is_expired h then []
  else
    let r := handler Msg.die
    let tr := EngineCall.dispatchMessage a.id Msg.die :: r.1
    match r.2 with
    | Option.none => tr
    | Option.some e => tr ++ [EngineCall.printException e]

/-
Concrete values used by witnesses and counterexamples.
-/

/-- A live engine node with id 9. -/
def sampleNode : Node := { id := 9, alive := true }

/-- A non-expired activity with one registered weak actor reference. -/
def liveActivity : Activity :=
  { expired := false, actorWeakRefs := [1], retainedActors := [] }

/-- An activity already set as expired. -/
def expiredActivity : Activity :=
  { expired := true, actorWeakRefs := [], retainedActors := [] }

/-- An actor wrapping `sampleNode`, owned by the activity at heap id 5. -/
def sampleActor : Actor := { id := 1, node := Option.some sampleNode, _activity := 5 }

/-- A heap holding the live owning activity of `sampleActor` at id 5. -/
def liveHeap : ActivityHeap := [(5, liveActivity)]

/-- An actor whose weak activity reference (id 7) points at `expiredActivity`
in `deadHeap`. -/
def deadActor : Actor := { id := 2, node := Option.some sampleNode, _activity := 7 }

/-- A heap where the activity of `deadActor` exists but is expired. -/
def deadHeap : ActivityHeap := [(7, expiredActivity)]

/-- A node-less actor owned by the activity at heap id 1. -/
def refActor : Actor := { id := 3, node := Option.none, _activity := 1 }

/-- A small heap for `refActor`. -/
def heapA : ActivityHeap := [(1, liveActivity)]

/-- A different heap that stores the same activity under id 1. -/
def heapB : ActivityHeap := [(1, liveActivity), (7, expiredActivity)]

/-- A dynamic handler that raises on every message before doing anything. -/
def failingHandler : Handler := fun _ => ([], Option.some "boom")

/-
Helper lemmas about the activity heap, shared by the claim theorems.
-/

/-- Updating the entry of a weak reference that currently dereferences to some
activity makes later dereferences see the new activity. -/
theorem derefActivity_heapUpdate (h : ActivityHeap) (r : ActivityId) (act act0 : Activity)
    (hd : derefActivity h r = Option.some act0) :
    derefActivity (heapUpdate h r act) r = Option.some act := by
  induction h with
  | nil => simp [derefActivity] at hd
  | cons p rest ih =>
      obtain ⟨i, a0⟩ := p
      by_cases hi : i = r
      · subst hi
        simp [derefActivity, heapUpdate]
      · simp [derefActivity, heapUpdate, hi] at hd ⊢
        exact ih hd

/-- After the garbage collector frees the activity with id `r`, every weak
reference to `r` dereferences to `none`. -/
theorem derefActivity_collect (h : ActivityHeap) (r : ActivityId) :
    derefActivity (collectActivity h r) r = Option.none := by
  induction h with
  | nil => rfl
  | cons p rest ih =>
      obtain ⟨i, a0⟩ := p
      by_cases hi : i = r
      · simp [collectActivity, hi, ih]
      · simp [collectActivity, derefActivity, hi, ih]

/-- C1 (counterexample): the claim says that every run of the `__del__`
finalizer dispatches a synthetic `DieMessage` via `handlemessage`. For the
concrete actor `deadActor` finalized on the empty heap (its owning activity
already collected, so it is expired) the finalizer emits nothing at all: its
trace is empty and in particular contains no dispatch event. -/
theorem C1_del_counterexample :
    Actor.del deadActor [] deadActor.defaultHandler = [] ∧
    EngineCall.dispatchMessage deadActor.id Msg.die ∉
      Actor.del deadActor [] deadActor.defaultHandler := by
  decide

/-- C1 (amended): for every actor that is NOT expired when its `__del__`
finalizer runs, a synthetic `DieMessage` is dispatched to the actor via its
own (dynamically bound) `handlemessage` method, and the finalizer trace is
exactly that dispatch followed by the effects of the handler, plus the
catch-all exception report when the handler raised — making `DieMessage`
handling the single point of teardown. -/
theorem C1_del_dispatches_die (a : Actor) (h : ActivityHeap) (handler : Handler)
    (hne : a.is_expired h = false) :
    a.del h handler =
      EngineCall.dispatchMessage a.id Msg.die ::
        ((handler Msg.die).1 ++
          (match (handler Msg.die).2 with
           | Option.none => []
           | Option.some e => [EngineCall.printException e])) := by
  simp only [Actor.del, hne, Bool.false_eq_true, if_false]
  cases hr : (handler Msg.die).2 <;> simp [hr]

/-- C1 (witness): the non-expired `sampleActor`, finalized with its default
handler, emits the dispatch followed by the deletion of its node. -/
theorem C1_del_dispatches_die_witness :
    Actor.del sampleActor liveHeap sampleActor.defaultHandler =
      EngineCall.dispatchMessage sampleActor.id Msg.die ::
        ((sampleActor.defaultHandler Msg.die).1 ++
          (match (sampleActor.defaultHandler Msg.die).2 with
           | Option.none => []
           | Option.some e => [EngineCall.printException e])) :=
  C1_del_dispatches_die sampleActor liveHeap sampleActor.defaultHandler (by decide)

/-- C2: `is_expired` returns `true` exactly when the weak reference to the
owning activity dereferences to `none`, and otherwise returns exactly the
value of that activity `is_expired` query. -/
theorem C2_is_expired_spec (a : Actor) (h : ActivityHeap) :
    a.is_expired h =
      (match derefActivity h a._activity with
       | Option.none => true
       | Option.some act => act.is_expired) := by
  cases hd : derefActivity h a._activity <;>
    simp [Actor.is_expired, Actor.getactivity, hd]

/-- C3: an actor that is expired when its `__del__` finalizer runs performs no
engine-affecting operation: whatever handler is dynamically bound, the
finalizer trace is empty, so no `DieMessage` is dispatched and no
`node.delete()` is reached. -/
theorem C3_del_expired_noop (a : Actor) (h : ActivityHeap) (handler : Handler)
    (hexp : a.is_expired h = true) :
    a.del h handler = [] := by
  simp [Actor.del, hexp]

/-- C3 (witness): `deadActor`, whose owning activity exists but is expired,
is finalized without any engine call. -/
theorem C3_del_expired_noop_witness :
    Actor.del deadActor deadHeap deadActor.defaultHandler = [] :=
  C3_del_expired_noop deadActor deadHeap deadActor.defaultHandler (by decide)

/-- C4: every exception raised during the die-message dispatch inside
`__del__` is caught and reported through the error-printing subsystem, and
nothing else happens: the finalizer trace is the dispatch, the effects the
handler performed before raising, and one `printException` report — and the
finalizer itself returns normally (its result type carries no exception), so
the exception never propagates out of `__del__`. -/
theorem C4_del_catches_exceptions (a : Actor) (h : ActivityHeap) (handler : Handler)
    (e : String) (hne : a.is_expired h = false) (hexn : (handler Msg.die).2 = Option.some e) :
    a.del h handler =
      (EngineCall.dispatchMessage a.id Msg.die :: (handler Msg.die).1) ++
        [EngineCall.printException e] := by
  simp [Actor.del, hne, hexn]

/-- C4 (witness): finalizing the non-expired `sampleActor` with a handler
that raises "boom" yields the dispatch followed by the printed report. -/
theorem C4_del_catches_exceptions_witness :
    Actor.del sampleActor liveHeap failingHandler =
      (EngineCall.dispatchMessage sampleActor.id Msg.die :: (failingHandler Msg.die).1) ++
        [EngineCall.printException "boom"] :=
  C4_del_catches_exceptions sampleActor liveHeap failingHandler "boom" (by decide) (by decide)

/-- C5: `autoretain` raises `ActivityNotFoundError` exactly when the weak
activity reference dereferences to `none`; otherwise it adds the actor to the
retain list of that activity through `retain_actor` and returns the very same
actor it was called on. -/
theorem C5_autoretain_spec (a : Actor) (h : ActivityHeap) :
    (a.autoretain h = Except.error Exn.activityNotFound ↔
      derefActivity h a._activity = Option.none) ∧
    (∀ act : Activity, derefActivity h a._activity = Option.some act →
      a.autoretain h =
        Except.ok (a, heapUpdate h a._activity (act.retain_actor a.id)) ∧
      derefActivity (heapUpdate h a._activity (act.retain_actor a.id)) a._activity =
        Option.some { act with retainedActors := act.retainedActors ++ [a.id] }) := by
  refine ⟨?_, ?_⟩
  · cases hd : derefActivity h a._activity <;> simp [Actor.autoretain, hd]
  · intro act hd
    refine ⟨by simp [Actor.autoretain, hd], ?_⟩
    rw [derefActivity_heapUpdate h a._activity (act.retain_actor a.id) act hd]
    rfl

/-- C5 (witness): `sampleActor.autoretain` on `liveHeap` succeeds, returns
`sampleActor` itself and records id 1 in the retain list of its activity. -/
theorem C5_autoretain_spec_witness :
    Actor.autoretain sampleActor liveHeap =
      Except.ok (sampleActor,
        heapUpdate liveHeap sampleActor._activity (liveActivity.retain_actor sampleActor.id)) ∧
    derefActivity
        (heapUpdate liveHeap sampleActor._activity (liveActivity.retain_actor sampleActor.id))
        sampleActor._activity =
      Option.some { liveActivity with retainedActors := liveActivity.retainedActors ++ [sampleActor.id] } :=
  (C5_autoretain_spec sampleActor liveHeap).2 liveActivity (by decide)

/-- C6: when the engine has a current activity, `__init__` succeeds and
returns an actor whose `node` attribute is exactly the given optional node,
whose weak reference points at the current activity, and which has been
appended exactly once to the weak-actor registry of that activity. -/
theorem C6_init_spec (newId : Nat) (node : Option Node) (ctx : EngineContext) (act : Activity)
    (hcur : derefActivity ctx.heap ctx.current = Option.some act) :
    Actor.init newId node ctx =
      Except.ok ({ id := newId, node := node, _activity := ctx.current },
        { ctx with heap := heapUpdate ctx.heap ctx.current (act.add_actor_weak_ref newId) }) ∧
    derefActivity (heapUpdate ctx.heap ctx.current (act.add_actor_weak_ref newId)) ctx.current =
      Option.some { act with actorWeakRefs := act.actorWeakRefs ++ [newId] } ∧
    (act.actorWeakRefs ++ [newId]).count newId = act.actorWeakRefs.count newId + 1 := by
  refine ⟨?_, ?_, ?_⟩
  · cases node <;> simp [Actor.init, hcur]
  · rw [derefActivity_heapUpdate ctx.heap ctx.current (act.add_actor_weak_ref newId) act hcur]
    rfl
  · simp [List.count_append]

/-- C6 (witness): constructing actor 4 wrapping `sampleNode` in a context
whose current activity is `liveActivity` stores the node, points the weakref
at id 5, and extends the weak-actor registry from `[1]` by one entry `4`. -/
theorem C6_init_spec_witness :
    Actor.init 4 (Option.some sampleNode) { heap := liveHeap, current := 5 } =
      Except.ok ({ id := 4, node := Option.some sampleNode, _activity := 5 },
        { heap := heapUpdate liveHeap 5 (liveActivity.add_actor_weak_ref 4), current := 5 }) ∧
    derefActivity (heapUpdate liveHeap 5 (liveActivity.add_actor_weak_ref 4)) 5 =
      Option.some { liveActivity with actorWeakRefs := liveActivity.actorWeakRefs ++ [4] } ∧
    (liveActivity.actorWeakRefs ++ [4]).count 4 = liveActivity.actorWeakRefs.count 4 + 1 :=
  C6_init_spec 4 (Option.some sampleNode) { heap := liveHeap, current := 5 } liveActivity (by decide)

/-- C7: the stored activity reference is weak (non-owning). First, the
collector may free the owning activity while the actor still exists, and
afterwards the weakref dereferences to `none` and the actor reports itself
expired with `getactivity(doraise=False)` returning `None`. Second, every
activity access of the actor factors through dereferencing that weakref: two
heaps on which the dereference agrees are indistinguishable to
`getactivity`, the `activity` property and `is_expired`. -/
theorem C7_weak_activity_ref (a : Actor) (h1 h2 : ActivityHeap) :
    (derefActivity (collectActivity h1 a._activity) a._activity = Option.none ∧
     a.is_expired (collectActivity h1 a._activity) = true ∧
     a.getactivity (collectActivity h1 a._activity) false = Except.ok Option.none) ∧
    (derefActivity h1 a._activity = derefActivity h2 a._activity →
      (∀ d : Bool, a.getactivity h1 d = a.getactivity h2 d) ∧
      a.activity h1 = a.activity h2 ∧
      a.is_expired h1 = a.is_expired h2) := by
  refine ⟨⟨derefActivity_collect h1 a._activity, ?_, ?_⟩, ?_⟩
  · simp [Actor.is_expired, Actor.getactivity, derefActivity_collect]
  · simp [Actor.getactivity, derefActivity_collect]
  · intro hd
    refine ⟨fun d => ?_, ?_, ?_⟩ <;>
      simp [Actor.getactivity, Actor.activity, Actor.is_expired, hd]

/-- C7 (witness): `heapA` and `heapB` differ as heaps but agree on what the
weakref of `refActor` dereferences to, so all its activity accesses agree. -/
theorem C7_weak_activity_ref_witness :
    (∀ d : Bool, Actor.getactivity refActor heapA d = Actor.getactivity refActor heapB d) ∧
    Actor.activity refActor heapA = Actor.activity refActor heapB ∧
    Actor.is_expired refActor heapA = Actor.is_expired refActor heapB :=
  (C7_weak_activity_ref refActor heapA heapB).2 (by decide)

/-- C8: the default `handlemessage` answers a `DieMessage` with `None` after
deleting the wrapped node exactly when one is present (and with no engine
call when `node` is `None`), and answers every other message with the
`UNHANDLED` sentinel and an empty trace. -/
theorem C8_handlemessage_spec (a : Actor) (t : Nat) :
    a.handlemessage Msg.die =
      (match a.node with
       | Option.some n => (HMResult.none, [EngineCall.nodeDelete n.id])
       | Option.none => (HMResult.none, [])) ∧
    a.handlemessage (Msg.other t) = (HMResult.unhandled, []) :=
  ⟨rfl, rfl⟩

/-- C9: the boolean conversion of an actor equals its `exists` query, and the
default `exists` returns `node.exists()` when a node is wrapped and `true`
otherwise; in particular a node-less base actor is always truthy. -/
theorem C9_bool_exists_spec (a : Actor) :
    a.toBool = a.exists ∧
    a.exists =
      (match a.node with
       | Option.some n => n.exists
       | Option.none => true) ∧
    (a.node = Option.none → a.toBool = true) := by
  refine ⟨rfl, rfl, ?_⟩
  intro hn
  simp [Actor.toBool, Actor.exists, hn]

/-- C9 (witness): the node-less `refActor` is truthy. -/
theorem C9_bool_exists_spec_witness : Actor.toBool refActor = true :=
  (C9_bool_exists_spec refActor).2.2 (by decide)

/-- C10: the `activity` property and `getactivity(doraise=True)` raise
`ActivityNotFoundError` exactly when the weakref dereferences to `none` and
otherwise return the activity; `getactivity(doraise=False)` never raises,
returning `None` in exactly that same case. -/
theorem C10_getactivity_spec (a : Actor) (h : ActivityHeap) :
    (derefActivity h a._activity = Option.none →
      a.activity h = Except.error Exn.activityNotFound ∧
      a.getactivity h true = Except.error Exn.activityNotFound ∧
      a.getactivity h false = Except.ok Option.none) ∧
    (∀ act : Activity, derefActivity h a._activity = Option.some act →
      a.activity h = Except.ok act ∧
      a.getactivity h true = Except.ok (Option.some act) ∧
      a.getactivity h false = Except.ok (Option.some act)) := by
  refine ⟨?_, ?_⟩
  · intro hd
    refine ⟨?_, ?_, ?_⟩ <;> simp [Actor.activity, Actor.getactivity, hd]
  · intro act hd
    refine ⟨?_, ?_, ?_⟩ <;> simp [Actor.activity, Actor.getactivity, hd]

/-- C10 (witness): `sampleActor` on `liveHeap` gets its live activity back
from the property and from both `getactivity` variants. -/
theorem C10_getactivity_spec_witness :
    Actor.activity sampleActor liveHeap = Except.ok liveActivity ∧
    Actor.getactivity sampleActor liveHeap true = Except.ok (Option.some liveActivity) ∧
    Actor.getactivity sampleActor liveHeap false = Except.ok (Option.some liveActivity) :=
  (C10_getactivity_spec sampleActor liveHeap).2 liveActivity (by decide)

end Ballistica
